import Mathlib

/-!
Shallow embedding of `src/cache/cache.c`, a set-associative write-back cache
simulator, together with theorems settling the specification claims about it.

Modelling conventions:
* `uword_t` (a 64-bit unsigned integer, printed with `%llx` in the source) is
  modelled as `Nat`; wherever C truncates to 64 bits we take `% 2 ^ 64`
  explicitly.
* The four statistics counters (`miss_count`, `hit_count`,
  `dirty_eviction_count`, `clean_eviction_count`) and the static variable
  `way` are C file-scope mutable globals; they are threaded explicitly as a
  `globals_t` record.
* C functions that mutate the cache or the globals become functions
  returning the updated state alongside their result.
* `select_line` declares the locals `lru` and `lru_way` without initializing
  them; the embedding threads their junk start values as explicit arguments
  `junk_lru` and `junk_way`, so that dependence of the result on uninitialized
  memory is expressible.
* A pointer returned by `get_line` is modelled as `Option (Nat × Nat)`
  (set index and way); `none` models the NULL pointer returned on a miss.
  An accessor whose C body would dereference that NULL pointer returns the
  state reached so far together with `none` / `false` at that point.
* Bit shifts of 64-bit operands are defined in C only for shift amounts
  below 64.  The main model uses the mathematical shift (total on `Nat`);
  the `_c` variants below track the C definedness condition with `Option`
  and are used to examine the shift-amount edge cases.
-/

/-- One cache line, mirroring `cache_line_t`: valid bit, tag, LRU stamp,
dirty bit and the block data bytes. -/
structure cache_line_t where
  valid : Bool
  tag : Nat
  lru : Nat
  dirty : Bool
  data : List Nat
deriving Repr, DecidableEq, Inhabited

/-- One cache set, mirroring `cache_set_t`: an array of lines. -/
structure cache_set_t where
  lines : List cache_line_t
deriving Repr, DecidableEq, Inhabited

/-- The cache, mirroring `cache_t`: geometry fields `s`, `b`, `E`, `d` and
the array of sets. -/
structure cache_t where
  s : Nat
  b : Nat
  E : Nat
  d : Nat
  sets : List cache_set_t
deriving Repr, DecidableEq, Inhabited

/-- The C file-scope mutable state: the four statistics counters declared at
the top of `cache.c` and the static variable `way` used to communicate the
hitting way from `check_hit` to `get_line`. -/
structure globals_t where
  miss_count : Nat
  hit_count : Nat
  dirty_eviction_count : Nat
  clean_eviction_count : Nat
  way : Nat
deriving Repr, DecidableEq, Inhabited

/-- The access operation kind passed to `check_hit` and `access_data`. -/
inductive operation_t where
  | READ
  | WRITE
deriving Repr, DecidableEq

/-- `#define ADDRESS_LENGTH 64`. -/
def ADDRESS_LENGTH : Nat := 64

/-- All counters start at zero (C zero-initializes them), `way` starts at 0. -/
def init_globals : globals_t :=
  { miss_count := 0, hit_count := 0, dirty_eviction_count := 0,
    clean_eviction_count := 0, way := 0 }

/-- `create_cache`: fresh cache with `2 ^ s` sets of `E` lines, every line
invalid with zeroed tag, lru, dirty and a zeroed block of `2 ^ b` bytes. -/
def create_cache (s_in b_in E_in d_in : Nat) : cache_t :=
  { s := s_in, b := b_in, E := E_in, d := d_in,
    sets := List.replicate (2 ^ s_in)
      { lines := List.replicate E_in
          { valid := false, tag := 0, lru := 0, dirty := false,
            data := List.replicate (2 ^ b_in) 0 } } }

/-- `get_set_index`: `(addr << (ADDRESS_LENGTH - s - b)) >> (ADDRESS_LENGTH - s)`,
with the left shift truncated to 64 bits as C does on `uword_t`. -/
def get_set_index (cache : cache_t) (addr : Nat) : Nat :=
  ((addr <<< (ADDRESS_LENGTH - cache.s - cache.b)) % 2 ^ ADDRESS_LENGTH) >>>
    (ADDRESS_LENGTH - cache.s)

/-- `get_block_offset`: `(addr << (ADDRESS_LENGTH - b)) >> (ADDRESS_LENGTH - b)`,
with the left shift truncated to 64 bits. -/
def get_block_offset (cache : cache_t) (addr : Nat) : Nat :=
  ((addr <<< (ADDRESS_LENGTH - cache.b)) % 2 ^ ADDRESS_LENGTH) >>>
    (ADDRESS_LENGTH - cache.b)

/-- C shift-left of a 64-bit operand: defined only for shift amounts below
64, result truncated to 64 bits. -/
def cSHL (x n : Nat) : Option Nat :=
  if n < 64 then some ((x <<< n) % 2 ^ 64) else none

/-- C shift-right of a 64-bit operand: defined only for shift amounts below
64. -/
def cSHR (x n : Nat) : Option Nat :=
  if n < 64 then some (x >>> n) else none

/-- `get_set_index` with the C definedness condition on each shift tracked:
`none` means the C expression performs a shift by 64 or more (undefined). -/
def get_set_index_c (cache : cache_t) (addr : Nat) : Option Nat := do
  let t ← cSHL addr (ADDRESS_LENGTH - cache.s - cache.b)
  cSHR t (ADDRESS_LENGTH - cache.s)

/-- `get_block_offset` with the C shift definedness condition tracked. -/
def get_block_offset_c (cache : cache_t) (addr : Nat) : Option Nat := do
  let t ← cSHL addr (ADDRESS_LENGTH - cache.b)
  cSHR t (ADDRESS_LENGTH - cache.b)

/-- The tag computation of `check_hit` (line 180 of the source),
`addr >> (cache->s + cache->b)`, with the C shift definedness condition
tracked: `none` means the source shifts a 64-bit operand by 64 bits. -/
def check_hit_tag_c (cache : cache_t) (addr : Nat) : Option Nat :=
  cSHR addr (cache.s + cache.b)

/-- The scan loop of `check_hit` over the lines of the target set, starting
at way `i`.  On the first line with `valid && tag == tag` it returns the way
index and the lines list with that line updated (`dirty := true` when the
operation is a write, as the loop body does); otherwise `none`. -/
def check_hit_scan (tag : Nat) (operation : operation_t)
    (lines : List cache_line_t) (i : Nat) :
    Option (Nat × List cache_line_t) :=
  match lines with
  | [] => none
  | l :: rest =>
    if l.valid && l.tag == tag then
      some (i, (if operation = operation_t.WRITE then { l with dirty := true }
                else l) :: rest)
    else
      match check_hit_scan tag operation rest (i + 1) with
      | none => none
      | some (w, rest2) => some (w, l :: rest2)

/-- `check_hit`: scans the target set for a valid line with matching tag.
On a hit it increments `hit_count`, records the way in the static `way`,
and, when the operation is a write, sets the line dirty and increments
`dirty_eviction_count` (exactly as the source does); on a miss it increments
`miss_count`.  Returns the updated cache, the updated globals, and the
hit flag. -/
def check_hit (cache : cache_t) (g : globals_t) (addr : Nat)
    (operation : operation_t) : cache_t × globals_t × Bool :=
  let set_index := get_set_index cache addr
  let tag := addr >>> (cache.s + cache.b)
  match check_hit_scan tag operation (cache.sets.getD set_index default).lines 0 with
  | some (w, lines2) =>
    ({ cache with sets := cache.sets.set set_index { lines := lines2 } },
     { g with
        hit_count := g.hit_count + 1,
        way := w,
        dirty_eviction_count :=
          g.dirty_eviction_count +
            (if operation = operation_t.WRITE then 1 else 0) },
     true)
  | none =>
    (cache, { g with miss_count := g.miss_count + 1 }, false)

/-- The scan loop of `select_line`: in each iteration it first updates the
running minimum `(lru, lru_way)` (seeded from the uninitialized locals, not
from way 0), then returns the current way if the line is invalid; after the
loop it returns `lru_way`. -/
def select_line_scan (lines : List cache_line_t) (i : Nat)
    (lru : Nat) (lru_way : Nat) : Nat :=
  match lines with
  | [] => lru_way
  | l :: rest =>
    let lru2 := if l.lru < lru then l.lru else lru
    let lru_way2 := if l.lru < lru then i else lru_way
    if l.valid = false then i
    else select_line_scan rest (i + 1) lru2 lru_way2

/-- `select_line`, returning the selected way index of the target set.  The
arguments `junk_lru` and `junk_way` are the junk start values of the
uninitialized locals `lru` and `lru_way` of the C function. -/
def select_line (cache : cache_t) (addr : Nat)
    (junk_lru junk_way : Nat) : Nat :=
  let set_index := get_set_index cache addr
  select_line_scan (cache.sets.getD set_index default).lines 0 junk_lru junk_way

/-- The eviction record, mirroring `evicted_line_t`. -/
structure evicted_line_t where
  valid : Bool
  dirty : Bool
  addr : Nat
  data : List Nat
deriving Repr, DecidableEq, Inhabited

/-- `handle_miss`: selects a victim with `select_line`, records its old
valid bit, reconstructed address and data in the eviction record, and
increments `dirty_eviction_count` when the victim line is dirty and
`clean_eviction_count` otherwise (regardless of the victim valid bit, as
the source does).  The source never writes the victim line (valid, tag,
lru and data are left untouched: the fill marked `TODO` is absent), so the
cache is returned unchanged. -/
def handle_miss (cache : cache_t) (g : globals_t) (addr : Nat)
    (operation : operation_t) (junk_lru junk_way : Nat) :
    cache_t × globals_t × evicted_line_t :=
  let set_index := get_set_index cache addr
  let block_offset := get_block_offset cache addr
  let w := select_line cache addr junk_lru junk_way
  let line := (cache.sets.getD set_index default).lines.getD w default
  let ev_addr :=
    ((line.tag <<< (cache.s + cache.b)) % 2 ^ 64) |||
      ((set_index <<< cache.b) % 2 ^ 64) ||| block_offset
  if line.dirty then
    (cache,
     { g with dirty_eviction_count := g.dirty_eviction_count + 1 },
     { valid := line.valid, dirty := true, addr := ev_addr, data := line.data })
  else
    (cache,
     { g with clean_eviction_count := g.clean_eviction_count + 1 },
     { valid := line.valid, dirty := false, addr := ev_addr, data := line.data })

/-- `access_data`: one access; `check_hit` first, and on a miss
`handle_miss` (whose eviction record is freed and discarded). -/
def access_data (cache : cache_t) (g : globals_t) (addr : Nat)
    (operation : operation_t) (junk_lru junk_way : Nat) :
    cache_t × globals_t :=
  let r := check_hit cache g addr operation
  if r.2.2 then (r.1, r.2.1)
  else
    let m := handle_miss r.1 r.2.1 addr operation junk_lru junk_way
    (m.1, m.2.1)

/-- `get_line`: calls `check_hit` with operation `false` (= `READ`); on a
hit returns a pointer to the hitting line (modelled as set index and the
static `way` just recorded by `check_hit`), on a miss returns NULL
(modelled as `none`). -/
def get_line (cache : cache_t) (g : globals_t) (addr : Nat) :
    cache_t × globals_t × Option (Nat × Nat) :=
  let set_index := get_set_index cache addr
  let r := check_hit cache g addr operation_t.READ
  if r.2.2 then (r.1, r.2.1, some (set_index, r.2.1.way))
  else (r.1, r.2.1, none)

/-- `get_byte_cache`: reads `line->data[block_offset]`.  When `get_line`
returns NULL the C body dereferences the NULL pointer; the model returns
the state reached at that point together with `none`. -/
def get_byte_cache (cache : cache_t) (g : globals_t) (addr : Nat) :
    cache_t × globals_t × Option Nat :=
  let block_offset := get_block_offset cache addr
  let r := get_line cache g addr
  match r.2.2 with
  | none => (r.1, r.2.1, none)
  | some (si, w) =>
    let line := (r.1.sets.getD si default).lines.getD w default
    (r.1, r.2.1, some (line.data.getD block_offset 0))

/-- C logical AND of two integers: 1 when both are nonzero, else 0.  The
source computes each byte of `get_word_cache` with the logical operator
`&&`, not the bitwise `&`. -/
def cLAND (x y : Nat) : Nat :=
  if x ≠ 0 ∧ y ≠ 0 then 1 else 0

/-- The loop of `get_word_cache`:
`b = data[i + block_offset] && 0xFF; val = val | (b << (8 * i))`,
for `i = 0 .. 7` (`fuel` counts the remaining iterations). -/
def get_word_loop (data : List Nat) (block_offset : Nat)
    (i : Nat) (val : Nat) (fuel : Nat) : Nat :=
  match fuel with
  | 0 => val
  | fuel2 + 1 =>
    let b := cLAND (data.getD (i + block_offset) 0) 0xFF
    get_word_loop data block_offset (i + 1) (val ||| (b <<< (8 * i))) fuel2

/-- `get_word_cache`: assembles the 8-byte word with `get_word_loop`.
`none` models the NULL dereference when `get_line` misses. -/
def get_word_cache (cache : cache_t) (g : globals_t) (addr : Nat) :
    cache_t × globals_t × Option Nat :=
  let block_offset := get_block_offset cache addr
  let r := get_line cache g addr
  match r.2.2 with
  | none => (r.1, r.2.1, none)
  | some (si, w) =>
    let line := (r.1.sets.getD si default).lines.getD w default
    (r.1, r.2.1, some (get_word_loop line.data block_offset 0 0 8))

/-- Replace line `w` of set `si` of the cache (the effect of writing through
the line pointer returned by `get_line`). -/
def set_line (cache : cache_t) (si w : Nat) (line : cache_line_t) : cache_t :=
  { cache with
      sets := cache.sets.set si
        { lines := (cache.sets.getD si default).lines.set w line } }

/-- `set_byte_cache`: writes `val` to `line->data[block_offset]` and then
sets `line->dirty = true` (as the source does).  The Bool result is `false`
when the C body would dereference the NULL `get_line` result. -/
def set_byte_cache (cache : cache_t) (g : globals_t) (addr : Nat)
    (val : Nat) : cache_t × globals_t × Bool :=
  let block_offset := get_block_offset cache addr
  let r := get_line cache g addr
  match r.2.2 with
  | none => (r.1, r.2.1, false)
  | some (si, w) =>
    let line := (r.1.sets.getD si default).lines.getD w default
    let line2 := { line with data := line.data.set block_offset val,
                             dirty := true }
    (set_line r.1 si w line2, r.2.1, true)

/-- The loop of `set_word_cache`:
`data[block_offset + i] = (byte_t) val & 0xFF; val >>= 8` for `i = 0 .. 7`
(the cast to `byte_t` truncates to 8 bits, modelled by `% 256`). -/
def set_word_loop (block_offset : Nat) (data : List Nat)
    (i : Nat) (val : Nat) (fuel : Nat) : List Nat :=
  match fuel with
  | 0 => data
  | fuel2 + 1 =>
    set_word_loop block_offset
      (data.set (block_offset + i) ((val % 256) &&& 0xFF))
      (i + 1) (val >>> 8) fuel2

/-- `set_word_cache`: scatters the 8 bytes of `val` little-endian into the
block starting at `block_offset` and then sets `line->dirty = true` (as the
source does).  The Bool result is `false` when the C body would dereference
the NULL `get_line` result. -/
def set_word_cache (cache : cache_t) (g : globals_t) (addr : Nat)
    (val : Nat) : cache_t × globals_t × Bool :=
  let block_offset := get_block_offset cache addr
  let r := get_line cache g addr
  match r.2.2 with
  | none => (r.1, r.2.1, false)
  | some (si, w) =>
    let line := (r.1.sets.getD si default).lines.getD w default
    let line2 := { line with data := set_word_loop block_offset line.data 0 val 8,
                             dirty := true }
    (set_line r.1 si w line2, r.2.1, true)

/-- The address is resident: the `check_hit` scan of the target set finds a
valid line with matching tag (pure residency test, no state change). -/
def hits (cache : cache_t) (addr : Nat) : Bool :=
  (check_hit_scan (addr >>> (cache.s + cache.b)) operation_t.READ
    (cache.sets.getD (get_set_index cache addr) default).lines 0).isSome

/-- The globals `g2` record exactly one more access than `g`: when `hit`,
`hit_count` grew by one and `miss_count` is unchanged; otherwise
`miss_count` grew by one and `hit_count` is unchanged. -/
def counts_one_access (g g2 : globals_t) (hit : Bool) : Prop :=
  if hit then
    g2.hit_count = g.hit_count + 1 ∧ g2.miss_count = g.miss_count
  else
    g2.miss_count = g.miss_count + 1 ∧ g2.hit_count = g.hit_count

/-! ## Helper lemmas -/

/-- `check_hit` counts exactly one access: the hit counter grows by one on a
hit (miss counter unchanged) and the miss counter grows by one on a miss
(hit counter unchanged). -/
theorem check_hit_counts (cache : cache_t) (g : globals_t) (addr : Nat)
    (operation : operation_t) :
    counts_one_access g (check_hit cache g addr operation).2.1
      (check_hit cache g addr operation).2.2 := by
  cases h : check_hit_scan (addr >>> (cache.s + cache.b)) operation
      (cache.sets.getD (get_set_index cache addr) default).lines 0 with
  | none =>
    simp only [check_hit]
    rw [h]
    simp [counts_one_access]
  | some p =>
    obtain ⟨w, lines2⟩ := p
    simp only [check_hit]
    rw [h]
    simp [counts_one_access]

/-- The hit flag of `check_hit` with a read operation is the pure residency
test `hits`. -/
theorem check_hit_read_bool (cache : cache_t) (g : globals_t) (addr : Nat) :
    (check_hit cache g addr operation_t.READ).2.2 = hits cache addr := by
  cases h : check_hit_scan (addr >>> (cache.s + cache.b)) operation_t.READ
      (cache.sets.getD (get_set_index cache addr) default).lines 0 with
  | none =>
    simp only [check_hit, hits]
    rw [h]
    simp
  | some p =>
    obtain ⟨w, lines2⟩ := p
    simp only [check_hit, hits]
    rw [h]
    simp

/-- `handle_miss` leaves the cache array untouched (the fill is absent in
the source). -/
theorem handle_miss_fst (cache : cache_t) (g : globals_t) (addr : Nat)
    (operation : operation_t) (jl jw : Nat) :
    (handle_miss cache g addr operation jl jw).1 = cache := by
  simp only [handle_miss]
  split <;> rfl

/-- `handle_miss` does not touch the hit and miss counters. -/
theorem handle_miss_counts (cache : cache_t) (g : globals_t) (addr : Nat)
    (operation : operation_t) (jl jw : Nat) :
    (handle_miss cache g addr operation jl jw).2.1.hit_count = g.hit_count ∧
    (handle_miss cache g addr operation jl jw).2.1.miss_count = g.miss_count := by
  simp only [handle_miss]
  split <;> simp

/-- The globals after `get_line` are exactly the globals after its
`check_hit` call. -/
theorem get_line_globals (cache : cache_t) (g : globals_t) (addr : Nat) :
    (get_line cache g addr).2.1 = (check_hit cache g addr operation_t.READ).2.1 := by
  simp only [get_line]
  split <;> rfl

/-- The globals after `get_byte_cache` are the globals after its `get_line`
call. -/
theorem get_byte_cache_globals (cache : cache_t) (g : globals_t) (addr : Nat) :
    (get_byte_cache cache g addr).2.1 = (get_line cache g addr).2.1 := by
  simp only [get_byte_cache]
  cases h : (get_line cache g addr).2.2 with
  | none => simp [h]
  | some p => obtain ⟨si, w⟩ := p; simp [h]

/-- The globals after `get_word_cache` are the globals after its `get_line`
call. -/
theorem get_word_cache_globals (cache : cache_t) (g : globals_t) (addr : Nat) :
    (get_word_cache cache g addr).2.1 = (get_line cache g addr).2.1 := by
  simp only [get_word_cache]
  cases h : (get_line cache g addr).2.2 with
  | none => simp [h]
  | some p => obtain ⟨si, w⟩ := p; simp [h]

/-- The globals after `set_byte_cache` are the globals after its `get_line`
call. -/
theorem set_byte_cache_globals (cache : cache_t) (g : globals_t) (addr val : Nat) :
    (set_byte_cache cache g addr val).2.1 = (get_line cache g addr).2.1 := by
  simp only [set_byte_cache]
  cases h : (get_line cache g addr).2.2 with
  | none => simp [h]
  | some p => obtain ⟨si, w⟩ := p; simp [h]

/-- The globals after `set_word_cache` are the globals after its `get_line`
call. -/
theorem set_word_cache_globals (cache : cache_t) (g : globals_t) (addr val : Nat) :
    (set_word_cache cache g addr val).2.1 = (get_line cache g addr).2.1 := by
  simp only [set_word_cache]
  cases h : (get_line cache g addr).2.2 with
  | none => simp [h]
  | some p => obtain ⟨si, w⟩ := p; simp [h]

/-! ## Claim theorems -/

/-- C1: the claim fails on the code.  On a cold fill (victim line invalid)
`handle_miss` increments `clean_eviction_count` even though no eviction
happened: a single read access to address 0 on a fresh direct-mapped cache
leaves `clean_eviction_count = 1`.  Moreover on a write hit `check_hit`
increments `dirty_eviction_count` although a hit evicts nothing. -/
theorem C1_eviction_counters_wrong :
    (access_data (create_cache 0 0 1 0) init_globals 0 operation_t.READ 0 0).2.clean_eviction_count
        = 1 ∧
    (access_data (create_cache 0 0 1 0) init_globals 0 operation_t.READ 0 0).2.dirty_eviction_count
        = 0 ∧
    (access_data (⟨0, 0, 1, 0, [⟨[⟨true, 0, 0, false, [0]⟩]⟩]⟩ : cache_t)
        init_globals 0 operation_t.WRITE 0 0).2.dirty_eviction_count = 1 := by
  decide

/-- C2: the claim fails on the code.  `handle_miss` never installs the new
tag nor sets the valid bit (the fill is absent), so a second access to the
same address with the same operation misses again: two consecutive reads of
address 0 on a fresh cache with `s = 1`, `b = 1`, `E = 1` give two misses
and no hit. -/
theorem C2_miss_not_filled :
    (let st1 := access_data (create_cache 1 1 1 0) init_globals 0 operation_t.READ 0 0
     let st2 := access_data st1.1 st1.2 0 operation_t.READ 0 0
     st2.2.miss_count = 2 ∧ st2.2.hit_count = 0) := by
  decide

/-- C3: the claim fails on the code.  The locals `lru` and `lru_way` of
`select_line` are uninitialized; on an all-valid set whose lru values all
exceed the junk start value of `lru`, the scan never assigns `lru_way` and
the selected way is whatever garbage `lru_way` held: with junk values 0 the
result differs between junk `lru_way = 0` and junk `lru_way = 1`, so the
selection is not seeded from way 0 and is not even deterministic. -/
theorem C3_select_line_uninitialized :
    select_line (⟨0, 0, 2, 0, [⟨[⟨true, 0, 1, false, [0]⟩, ⟨true, 1, 2, false, [0]⟩]⟩]⟩ : cache_t)
        0 0 0 ≠
      select_line (⟨0, 0, 2, 0, [⟨[⟨true, 0, 1, false, [0]⟩, ⟨true, 1, 2, false, [0]⟩]⟩]⟩ : cache_t)
        0 0 1 := by
  decide

/-- C5: the claim fails on the code.  In the edge case `s + b = 64` the tag
computation of `check_hit` is `addr >> 64`, a shift of a 64-bit operand by
64 bits (undefined in C, and equal to `addr`, not 0, under the masked-shift
semantics of common hardware); likewise `get_set_index` shifts right by 64
whenever `s = 0`.  The definedness-tracking models return `none` there. -/
theorem C5_shift_by_64_performed :
    check_hit_tag_c (⟨32, 32, 1, 0, []⟩ : cache_t) 1 = none ∧
    get_set_index_c (⟨0, 5, 1, 0, []⟩ : cache_t) 1 = none := by
  decide

/-- C6: the claim fails on the code.  `get_word_cache` masks each byte with
the logical operator (`data[i + block_offset] && 0xFF`), collapsing every
nonzero byte to 1: after writing the word 2 to a resident line at address 0
(block size 8), reading the word back yields 1, not 2. -/
theorem C6_word_roundtrip_broken :
    (let r := set_word_cache
        (⟨0, 3, 1, 0, [⟨[⟨true, 0, 0, false, List.replicate 8 0⟩]⟩]⟩ : cache_t)
        init_globals 0 2
     (get_word_cache r.1 r.2.1 0).2.2) = some 1 := by
  decide

/-- C7: the claim fails on the code.  No recency state is ever written:
`check_hit` does not touch `lru` on a hit and `handle_miss` does not touch
it on a fill (there is no global recency counter in the source at all), so
the whole cache state is unchanged by accesses — two read misses on a fresh
two-way cache leave it equal to the fresh cache, and a read hit on a valid
line leaves that cache unchanged as well. -/
theorem C7_recency_never_updated :
    (let st1 := access_data (create_cache 0 0 2 0) init_globals 0 operation_t.READ 0 0
     (access_data st1.1 st1.2 0 operation_t.READ 0 0).1) = create_cache 0 0 2 0 ∧
    (access_data (⟨0, 0, 1, 0, [⟨[⟨true, 0, 0, false, [0]⟩]⟩]⟩ : cache_t)
        init_globals 0 operation_t.READ 0 0).1
      = (⟨0, 0, 1, 0, [⟨[⟨true, 0, 0, false, [0]⟩]⟩]⟩ : cache_t) := by
  decide

/-- C8: the claim fails on the code.  Called on a non-resident address,
`get_byte_cache` first mutates the statistics (its `get_line` call runs
`check_hit`, which increments `miss_count`) and then dereferences the NULL
line pointer (modelled by the `none` result): no loud deterministic failure,
and state was already mutated. -/
theorem C8_accessor_not_ub_free :
    (get_byte_cache (create_cache 1 1 1 0) init_globals 0).2.2 = none ∧
    (get_byte_cache (create_cache 1 1 1 0) init_globals 0).2.1.miss_count = 1 := by
  decide

/-- C9: the claim fails on the code.  `set_byte_cache` executes
`line->dirty = true` itself: writing the byte 5 at address 0 to a resident
clean line flips that line dirty bit to true, although the claim says dirty
transitions are not owned by the accessor. -/
theorem C9_set_byte_flips_dirty :
    (let r := set_byte_cache (⟨0, 1, 1, 0, [⟨[⟨true, 0, 0, false, [0, 0]⟩]⟩]⟩ : cache_t)
        init_globals 0 5
     ((r.1.sets.getD 0 default).lines.getD 0 default).dirty) = true := by
  decide

/-- C4: confirmed.  A single call to `access_data`, from any cache state,
globals, address, operation and any junk values of the uninitialized
`select_line` locals, increments exactly one of `hit_count` and
`miss_count` by exactly 1 and leaves the other unchanged. -/
theorem C4_exactly_one_counter (cache : cache_t) (g : globals_t) (addr : Nat)
    (operation : operation_t) (jl jw : Nat) :
    ((access_data cache g addr operation jl jw).2.hit_count = g.hit_count + 1 ∧
     (access_data cache g addr operation jl jw).2.miss_count = g.miss_count) ∨
    ((access_data cache g addr operation jl jw).2.miss_count = g.miss_count + 1 ∧
     (access_data cache g addr operation jl jw).2.hit_count = g.hit_count) := by
  have hc := check_hit_counts cache g addr operation
  cases hb : (check_hit cache g addr operation).2.2 with
  | true =>
    rw [counts_one_access, hb, if_pos rfl] at hc
    left
    simp only [access_data, hb, if_true]
    exact hc
  | false =>
    rw [counts_one_access, hb] at hc
    simp only [if_neg Bool.false_ne_true] at hc
    right
    have hm := handle_miss_counts (check_hit cache g addr operation).1
      (check_hit cache g addr operation).2.1 addr operation jl jw
    simp only [access_data, hb, Bool.false_eq_true, if_false]
    exact ⟨hm.2.trans hc.1, hm.1.trans hc.2⟩

/-- C10: confirmed.  Every call to `get_line`, and every byte and word
accessor call (each delegates to `get_line`, hence to the counting function
`check_hit`), itself increments `hit_count` by 1 when the address is
resident and `miss_count` by 1 when it is not, leaving the other counter
unchanged: the statistics are mutated by lookups and accessors, not only by
`access_data`. -/
theorem C10_lookups_mutate_counts (cache : cache_t) (g : globals_t)
    (addr val : Nat) :
    counts_one_access g (get_line cache g addr).2.1 (hits cache addr) ∧
    counts_one_access g (get_byte_cache cache g addr).2.1 (hits cache addr) ∧
    counts_one_access g (get_word_cache cache g addr).2.1 (hits cache addr) ∧
    counts_one_access g (set_byte_cache cache g addr val).2.1 (hits cache addr) ∧
    counts_one_access g (set_word_cache cache g addr val).2.1 (hits cache addr) := by
  have hc := check_hit_counts cache g addr operation_t.READ
  rw [check_hit_read_bool] at hc
  have hg : counts_one_access g (get_line cache g addr).2.1 (hits cache addr) := by
    rw [get_line_globals]
    exact hc
  refine ⟨hg, ?_, ?_, ?_, ?_⟩
  · rw [get_byte_cache_globals, get_line_globals]
    exact hc
  · rw [get_word_cache_globals, get_line_globals]
    exact hc
  · rw [set_byte_cache_globals, get_line_globals]
    exact hc
  · rw [set_word_cache_globals, get_line_globals]
    exact hc
